import Mathlib

/-!
Verification of the medical triage service against its natural-language
specification.  The Python sources are shallowly embedded: strings are
`String` / `List Char`, floats are `ℚ`, dictionaries with optional keys are
structures of `Option` fields, exceptions are `Except`/`Option`, and the
external capabilities (OpenAI client, geodesic distance) are explicit
parameters.
-/

/- ### Generic string helpers -/

/-- Case mapping used to embed Python `str.lower()` on ASCII text. -/
def lowerStr (s : String) : String := ⟨s.data.map Char.toLower⟩

/-- `leadsWith n h` is true when `n` is an initial segment of `h`. -/
def leadsWith : List Char → List Char → Bool
  | [], _ => true
  | _ :: _, [] => false
  | a :: as, b :: bs => a == b && leadsWith as bs

/-- `hasInfixL n h` is true when `n` occurs contiguously inside `h`;
this embeds Python's `n in h` substring test. -/
def hasInfixL (needle : List Char) : List Char → Bool
  | [] => leadsWith needle []
  | c :: t => leadsWith needle (c :: t) || hasInfixL needle t

/-- Python `needle in hay` on strings. -/
def containsStr (hay needle : String) : Bool := hasInfixL needle.data hay.data

/- ### EnhancedTriageService: rule-based scoring (enhanced_triage_service.py)

`triage_guidelines[level]["keywords"]`, as in the source. -/

def emergencyKeywords : List String :=
  ["chest pain", "difficulty breathing", "severe bleeding",
   "stroke", "unconscious", "severe head injury", "heart attack",
   "suicidal", "choking", "severe burn", "poisoning",
   "severe allergic reaction", "anaphylaxis", "seizure"]

def urgentKeywords : List String :=
  ["fever with rash", "broken bone", "deep cut", "high fever",
   "severe pain", "vomiting blood", "dehydration", "abdominal pain",
   "asthma attack", "urinary tract infection", "migraine"]

def routineKeywords : List String :=
  ["cold symptoms", "mild fever", "rash", "headache", "back pain",
   "sprain", "cough", "sore throat", "allergies", "ear pain"]

/-- Number of keywords of a guideline list occurring in the lowered text;
the scoring loop adds a fixed weight once per matching keyword. -/
def keywordHits (kws : List String) (textLower : String) : Nat :=
  (kws.filter (fun k => containsStr textLower k)).length

def breathingWords : List String := ["can't breathe", "difficulty breathing", "choking"]

def painWords : List String := ["sharp pain", "severe pain", "unbearable pain"]

/-- `emergency_score` accumulated in `determine_triage_level`:
3 per matching emergency keyword, +5 for a breathing pattern,
+3 for a sharp/severe/unbearable pain pattern. -/
def emergencyScoreOf (tl : String) : Nat :=
  3 * keywordHits emergencyKeywords tl
    + (if breathingWords.any (fun w => containsStr tl w) then 5 else 0)
    + (if painWords.any (fun w => containsStr tl w) then 3 else 0)

/-- `urgent_score`: 2 per matching urgent keyword. -/
def urgentScoreOf (tl : String) : Nat := 2 * keywordHits urgentKeywords tl

/-- `routine_score`: 1 per matching routine keyword. -/
def routineScoreOf (tl : String) : Nat := keywordHits routineKeywords tl

/-- Python `max(iterable, key=f)`: fold keeping the first element whose key
is maximal (a later element replaces the current best only when strictly
greater). -/
def pyMaxPair (first : String × Nat) (rest : List (String × Nat)) : String × Nat :=
  rest.foldl (fun best p => if best.2 < p.2 then p else best) first

/-- `EnhancedTriageService.determine_triage_level` (rule-based path;
the optional fine-tuned classifier of the source is absent). -/
def determine_triage_level (text : String) : String × ℚ :=
  let tl := lowerStr text
  let e := emergencyScoreOf tl
  let u := urgentScoreOf tl
  let r := routineScoreOf tl
  let best := pyMaxPair ("emergency", e) [("urgent", u), ("routine", r)]
  let total := e + u + r
  (best.1, if 0 < total then (best.2 : ℚ) / (total : ℚ) else 1/2)

/- ### Spec-side selector (from the spec's words, for claim C3) -/

/-- The level with the maximum accumulated score under the priority
tie-break emergency > urgent > routine, as the spec describes it. -/
def prioritySelect (e u r : Nat) : String :=
  if u ≤ e then (if r ≤ e then "emergency" else "routine")
  else if r ≤ u then "urgent" else "routine"

/- ### Lemmas about the Python max fold -/

theorem pyMaxPair_eq (e u r : Nat) :
    pyMaxPair ("emergency", e) [("urgent", u), ("routine", r)]
      = (prioritySelect e u r, Nat.max e (Nat.max u r)) := by
  unfold pyMaxPair prioritySelect
  simp only [List.foldl, Nat.max_def]
  split_ifs <;> dsimp only at * <;> simp only [Prod.mk.injEq] <;>
    constructor <;> first | rfl | trivial | omega

/- ### Claims C2 and C3: the rule-based scoring function -/

/-- C2 counterexample: the input "hello" accumulates zero on all three
scores, yet `determine_triage_level` returns level "emergency", not
"routine": Python's `max(scores, key=scores.get)` over an all-zero
mapping yields the first key, "emergency". -/
theorem zero_scores_cex :
    emergencyScoreOf (lowerStr "hello") = 0 ∧ urgentScoreOf (lowerStr "hello") = 0 ∧
    routineScoreOf (lowerStr "hello") = 0 ∧
    (determine_triage_level "hello").1 ≠ "routine" :=
  ⟨by decide, by decide, by decide, by decide⟩

/-- C2 (amended): on any text whose three accumulated scores are all zero,
`determine_triage_level` returns level "emergency" (the first key of the
scores mapping, kept by the max selection) with confidence 0.5. -/
theorem zero_scores_default_emergency (text : String)
    (he : emergencyScoreOf (lowerStr text) = 0)
    (hu : urgentScoreOf (lowerStr text) = 0)
    (hr : routineScoreOf (lowerStr text) = 0) :
    determine_triage_level text = ("emergency", 1/2) := by
  simp only [determine_triage_level, he, hu, hr]
  norm_num [pyMaxPair]

theorem zero_scores_default_emergency_witness :
    (emergencyScoreOf (lowerStr "hello") = 0 ∧ urgentScoreOf (lowerStr "hello") = 0 ∧
     routineScoreOf (lowerStr "hello") = 0) ∧
    determine_triage_level "hello" = ("emergency", 1/2) :=
  ⟨⟨by decide, by decide, by decide⟩,
   zero_scores_default_emergency "hello" (by decide) (by decide) (by decide)⟩

/-- C3: on any text with at least one positive accumulated score,
`determine_triage_level` returns the level with the maximum score under
the priority tie-break emergency > urgent > routine, with confidence
equal to the winning score divided by the sum of the three scores. -/
theorem scoring_max_priority (text : String)
    (h : 0 < emergencyScoreOf (lowerStr text) + urgentScoreOf (lowerStr text)
           + routineScoreOf (lowerStr text)) :
    determine_triage_level text
      = (prioritySelect (emergencyScoreOf (lowerStr text)) (urgentScoreOf (lowerStr text))
           (routineScoreOf (lowerStr text)),
         ((Nat.max (emergencyScoreOf (lowerStr text))
             (Nat.max (urgentScoreOf (lowerStr text)) (routineScoreOf (lowerStr text)))) : ℚ)
           / ((emergencyScoreOf (lowerStr text) + urgentScoreOf (lowerStr text)
               + routineScoreOf (lowerStr text) : ℕ) : ℚ)) := by
  simp only [determine_triage_level, pyMaxPair_eq]
  rw [if_pos h]

theorem scoring_max_priority_witness :
    0 < emergencyScoreOf (lowerStr "cough") + urgentScoreOf (lowerStr "cough")
          + routineScoreOf (lowerStr "cough") ∧
    determine_triage_level "cough"
      = (prioritySelect (emergencyScoreOf (lowerStr "cough")) (urgentScoreOf (lowerStr "cough"))
           (routineScoreOf (lowerStr "cough")),
         ((Nat.max (emergencyScoreOf (lowerStr "cough"))
             (Nat.max (urgentScoreOf (lowerStr "cough")) (routineScoreOf (lowerStr "cough")))) : ℚ)
           / ((emergencyScoreOf (lowerStr "cough") + urgentScoreOf (lowerStr "cough")
               + routineScoreOf (lowerStr "cough") : ℕ) : ℚ)) :=
  ⟨by decide, scoring_max_priority "cough" (by decide)⟩

/- ### ResponseSanitizer: `_postprocess_response` (enhanced_triage_service.py)

The two `re.sub` calls are embedded as scans over the character list.
`\b` is a word boundary (word chars `[A-Za-z0-9_]`), the patterns are
matched case-insensitively, and `.*?\.` consumes the shortest run of
non-newline characters up to a literal period. -/

def wordChar (c : Char) : Bool := c.isAlphanum || c == '_'

/-- Case-insensitive literal match at the head; returns the remainder. -/
def matchCI : List Char → List Char → Option (List Char)
  | [], l => some l
  | _ :: _, [] => none
  | a :: as, b :: bs => if a.toLower == b.toLower then matchCI as bs else none

/-- `\b` to the left of a pattern starting with a word character. -/
def boundaryBefore : Option Char → Bool
  | none => true
  | some p => !wordChar p

/-- `\b` to the right of a pattern ending with a word character. -/
def boundaryAfter : List Char → Bool
  | [] => true
  | c :: _ => !wordChar c

/-- `.*?\.` — shortest run of non-newline characters ending at a period. -/
def scanToDot : List Char → Option (List Char)
  | [] => none
  | '.' :: rest => some rest
  | '\n' :: _ => none
  | _ :: rest => scanToDot rest

def diagnosticPhrases : List String :=
  ["I diagnose", "you have", "you've got", "it's definitely"]

def reassurePhrases : List String :=
  ["don't worry", "it's nothing", "you'll be fine"]

def diagReplacement : List Char :=
  "I recommend consulting with a healthcare professional for an accurate assessment.".data

def reassureReplacement : List Char :=
  "I recommend monitoring your symptoms and seeking medical attention if they worsen".data

/-- Attempt the first `re.sub` pattern at the current position: one of the
diagnostic phrases, a word boundary, then text up to a period. -/
def tryDiagAt (l : List Char) : Option (List Char) :=
  diagnosticPhrases.findSome? fun p =>
    match matchCI p.data l with
    | none => none
    | some rest => if boundaryAfter rest then scanToDot rest else none

/-- Attempt the second `re.sub` pattern at the current position; also
returns the final character of the matched phrase (the character preceding
the position where scanning resumes). -/
def tryReassureAt (l : List Char) : Option (Char × List Char) :=
  reassurePhrases.findSome? fun p =>
    match matchCI p.data l with
    | none => none
    | some rest =>
      if boundaryAfter rest then some (p.data.getLastD ' ', rest) else none

/-- First `re.sub`: replace diagnostic assertions (through the sentence
period) with the deflection sentence.  `fuel` only bounds the recursion;
it starts above the input length and every step consumes a character. -/
def sub1Go : Nat → Option Char → List Char → List Char
  | 0, _, l => l
  | _ + 1, _, [] => []
  | fuel + 1, prev, c :: cs =>
    if boundaryBefore prev then
      match tryDiagAt (c :: cs) with
      | some rest => diagReplacement ++ sub1Go fuel (some '.') rest
      | none => c :: sub1Go fuel (some c) cs
    else c :: sub1Go fuel (some c) cs

def sub1 (l : List Char) : List Char := sub1Go (l.length + 1) none l

/-- Second `re.sub`: replace false-reassurance phrases. -/
def sub2Go : Nat → Option Char → List Char → List Char
  | 0, _, l => l
  | _ + 1, _, [] => []
  | fuel + 1, prev, c :: cs =>
    if boundaryBefore prev then
      match tryReassureAt (c :: cs) with
      | some (lastc, rest) => reassureReplacement ++ sub2Go fuel (some lastc) rest
      | none => c :: sub2Go fuel (some c) cs
    else c :: sub2Go fuel (some c) cs

def sub2 (l : List Char) : List Char := sub2Go (l.length + 1) none l

def disclaimerNeedle : List Char := "consult a healthcare professional".data

def disclaimerTail : List Char :=
  " Please consult with a healthcare professional for proper medical advice.".data

def postprocessL (l : List Char) : List Char :=
  let r := sub2 (sub1 l)
  if hasInfixL disclaimerNeedle (r.map Char.toLower) then r else r ++ disclaimerTail

/-- `EnhancedTriageService._postprocess_response`. -/
def postprocess_response (s : String) : String := ⟨postprocessL s.data⟩

/- ### Substring characterization -/

theorem leadsWith_iff (n : List Char) : ∀ h, leadsWith n h = true ↔ n <+: h := by
  induction n with
  | nil => intro h; simp [leadsWith]
  | cons a as ih =>
    intro h
    cases h with
    | nil => simp [leadsWith]
    | cons b bs => simp [leadsWith, List.cons_prefix_cons, ih]

theorem hasInfixL_iff (n h : List Char) : hasInfixL n h = true ↔ n <:+: h := by
  induction h with
  | nil => simp [hasInfixL, leadsWith_iff, List.infix_nil]
  | cons c t ih => simp [hasInfixL, leadsWith_iff, ih, List.infix_cons_iff]

theorem infix_of_append_right {l a b : List Char} (h : l <:+: b) : l <:+: a ++ b := by
  obtain ⟨s, t, hh⟩ := h
  exact ⟨a ++ s, t, by simp [List.append_assoc, hh]⟩

/- ### Claim C4: the response sanitizer -/

/-- C4 counterexample: on the input "you have appendicitis" the sanitizer
output still contains the configured diagnostic-assertion phrase
"you have" — the first substitution pattern requires a later sentence
period (`.*?\.`), so a diagnostic phrase with no following period is not
replaced; likewise the false-reassurance phrase survives in
"xdon't worry." because its occurrence is not word-bounded. -/
theorem sanitizer_diag_phrase_cex :
    containsStr (postprocess_response "you have appendicitis") "you have" = true ∧
    containsStr (postprocess_response "xdon't worry.") "don't worry" = true := by
  constructor <;> decide

/-- C4 (amended): for every input, the sanitizer output contains a
disclaimer phrase recommending consultation with a healthcare professional
(it is appended whenever the text does not already contain one);
diagnostic-assertion phrases are only removed when followed by a sentence
period, so one without a following period can survive. -/
theorem sanitizer_disclaimer (s : String) :
    containsStr (lowerStr (postprocess_response s)) "healthcare professional" = true ∧
    containsStr (lowerStr (postprocess_response s)) "consult" = true := by
  have key : ∀ l : List Char,
      ("healthcare professional".data <:+: (postprocessL l).map Char.toLower) ∧
      ("consult".data <:+: (postprocessL l).map Char.toLower) := by
    intro l
    unfold postprocessL
    by_cases h : hasInfixL disclaimerNeedle ((sub2 (sub1 l)).map Char.toLower) = true
    · rw [if_pos h]
      have hin : disclaimerNeedle <:+: (sub2 (sub1 l)).map Char.toLower :=
        (hasInfixL_iff _ _).mp h
      exact ⟨List.IsInfix.trans ((hasInfixL_iff _ _).mp (by decide)) hin,
             List.IsInfix.trans ((hasInfixL_iff _ _).mp (by decide)) hin⟩
    · rw [if_neg h, List.map_append]
      exact ⟨infix_of_append_right ((hasInfixL_iff _ _).mp (by decide)),
             infix_of_append_right ((hasInfixL_iff _ _).mp (by decide))⟩
  exact ⟨(hasInfixL_iff _ _).mpr (key s.data).1, (hasInfixL_iff _ _).mpr (key s.data).2⟩

/- ### TriageAIService (triage_service.py): assessment chain

The OpenAI tier is an external capability: `none` models an unconfigured
client (the local-model tier always delegates to the rule-based
assessment), `some (Except.error _)` a call that raised, and
`some (Except.ok a)` a call whose JSON response parsed to `a`.  The parsed
JSON object is a dictionary that may lack keys, hence `Option` fields. -/

structure Assessment where
  level : Option String
  confidence : Option ℚ
  summary : Option String
  recommendations : Option (List String)
  next_steps : Option (List String)
  risk_factors : Option (List String)

structure TriageResult where
  level : String
  confidence : ℚ
  summary : String
  recommendations : List String
  next_steps : List String
  image_analysis : Option String
  risk_factors : Option (List String)
  processing_time : ℚ

def svcEmergencyKeywords : List String :=
  ["chest pain", "heart attack", "stroke", "unconscious", "bleeding heavily",
   "difficulty breathing", "severe head injury", "paralysis", "seizure"]

def svcUrgentKeywords : List String :=
  ["abdominal pain", "broken bone", "high fever", "severe pain",
   "vomiting blood", "head injury", "eye injury", "severe burn"]

def svcRoutineKeywords : List String :=
  ["mild fever", "cough", "cold symptoms", "minor injury",
   "skin rash", "mild headache", "sore throat"]

/-- `TriageAIService._get_rule_based_assessment`: first keyword list that
matches decides the level (the source loops return on the first match,
which is equivalent to an existence test per list). -/
def get_rule_based_assessment (symptoms_text : String) : Assessment :=
  let tl := lowerStr symptoms_text
  if svcEmergencyKeywords.any (fun k => containsStr tl k) then
    { level := some "emergency", confidence := some (9/10),
      summary := some "Symptoms suggest emergency condition requiring immediate medical attention.",
      recommendations := some ["Call 911 immediately", "Go to nearest emergency room"],
      next_steps := some ["Follow emergency personnel instructions", "Bring medical history if possible"],
      risk_factors := some ["Life-threatening symptoms detected"] }
  else if svcUrgentKeywords.any (fun k => containsStr tl k) then
    { level := some "urgent", confidence := some (8/10),
      summary := some "Symptoms require urgent medical evaluation within 24 hours.",
      recommendations := some ["Seek medical attention today", "Avoid delaying care"],
      next_steps := some ["Contact urgent care or emergency department", "Monitor symptoms closely"],
      risk_factors := some ["Moderate to severe symptoms"] }
  else if svcRoutineKeywords.any (fun k => containsStr tl k) then
    { level := some "routine", confidence := some (7/10),
      summary := some "Symptoms suggest routine medical care needed.",
      recommendations := some ["Schedule appointment with healthcare provider"],
      next_steps := some ["Monitor symptoms", "Follow up if symptoms worsen"],
      risk_factors := some ["Mild symptoms"] }
  else
    { level := some "routine", confidence := some (6/10),
      summary := some "Symptoms require professional medical evaluation.",
      recommendations := some ["Consult with healthcare provider"],
      next_steps := some ["Schedule appointment", "Monitor symptoms"],
      risk_factors := some ["Symptoms unclear"] }

/-- `TriageAIService._get_triage_assessment`: try the OpenAI tier; its
parsed response is returned as-is, an exception falls back to the
rule-based assessment, and without a configured client the local tier
also ends at the rule-based assessment. -/
def get_triage_assessment (externalAI : Option (Except Unit Assessment))
    (symptoms_text : String) : Assessment :=
  match externalAI with
  | some (Except.ok a) => a
  | some (Except.error _) => get_rule_based_assessment symptoms_text
  | none => get_rule_based_assessment symptoms_text

/-- The safe default result built in `analyze_symptoms`'s except branch. -/
def safeDefaultResult : TriageResult :=
  { level := "routine", confidence := 1/2,
    summary := "Unable to complete analysis. Please consult a healthcare provider.",
    recommendations := ["Seek professional medical advice"],
    next_steps := ["Contact your primary care physician"],
    image_analysis := none, risk_factors := none, processing_time := 0 }

/-- `combined_input`: the text, extended with the image analysis text. -/
def combinedInput (text_input : String) (image_analysis : Option String) : String :=
  match image_analysis with
  | some ia => text_input ++ "\n\nImage Analysis: " ++ ia
  | none => text_input

/-- `TriageAIService.analyze_symptoms`.  The assessment dictionary is read
with subscripting, so a missing required key raises and the outer handler
returns the safe default; `risk_factors` is read with `.get(..., [])`.
`elapsed` stands for the measured wall-clock duration of the request. -/
def analyze_symptoms (externalAI : Option (Except Unit Assessment))
    (text_input : String) (image_analysis : Option String) (elapsed : ℚ) : TriageResult :=
  let a := get_triage_assessment externalAI (combinedInput text_input image_analysis)
  match a.level, a.confidence, a.summary, a.recommendations, a.next_steps with
  | some l, some c, some s, some recs, some ns =>
      { level := l, confidence := c, summary := s, recommendations := recs,
        next_steps := ns, image_analysis := image_analysis,
        risk_factors := some (a.risk_factors.getD []), processing_time := elapsed }
  | _, _, _, _, _ => safeDefaultResult

def validLevel (s : String) : Bool :=
  ["emergency", "urgent", "routine", "self_care"].contains s

/-- All keys required by `analyze_symptoms` are present in the parsed
assessment dictionary. -/
def assessmentComplete (a : Assessment) : Bool :=
  a.level.isSome && a.confidence.isSome && a.summary.isSome &&
    a.recommendations.isSome && a.next_steps.isSome

/- ### Helper lemmas about `analyze_symptoms` -/

theorem rule_based_assessment_ok (s : String) :
    assessmentComplete (get_rule_based_assessment s) = true ∧
    validLevel ((get_rule_based_assessment s).level.getD "") = true ∧
    0 ≤ (get_rule_based_assessment s).confidence.getD 0 ∧
    (get_rule_based_assessment s).confidence.getD 0 ≤ 1 := by
  simp only [get_rule_based_assessment]
  split_ifs <;> exact ⟨rfl, rfl, by norm_num, by norm_num⟩

theorem analyze_symptoms_of_complete (externalAI : Option (Except Unit Assessment))
    (text_input : String) (image_analysis : Option String) (elapsed : ℚ)
    (h : assessmentComplete
          (get_triage_assessment externalAI (combinedInput text_input image_analysis)) = true) :
    analyze_symptoms externalAI text_input image_analysis elapsed
      = (let a := get_triage_assessment externalAI (combinedInput text_input image_analysis)
         { level := a.level.getD "", confidence := a.confidence.getD 0,
           summary := a.summary.getD "", recommendations := a.recommendations.getD [],
           next_steps := a.next_steps.getD [], image_analysis := image_analysis,
           risk_factors := some (a.risk_factors.getD []), processing_time := elapsed }) := by
  simp only [assessmentComplete, Bool.and_eq_true, Option.isSome_iff_exists] at h
  obtain ⟨⟨⟨⟨⟨l, hl⟩, c, hc⟩, s, hs⟩, r, hr⟩, n, hn⟩ := h
  simp only [analyze_symptoms]
  rw [hl, hc, hs, hr, hn]
  simp [hl, hc, hs, hr, hn]

theorem analyze_symptoms_of_incomplete (externalAI : Option (Except Unit Assessment))
    (text_input : String) (image_analysis : Option String) (elapsed : ℚ)
    (h : assessmentComplete
          (get_triage_assessment externalAI (combinedInput text_input image_analysis)) = false) :
    analyze_symptoms externalAI text_input image_analysis elapsed = safeDefaultResult := by
  simp only [analyze_symptoms]
  rcases hl : (get_triage_assessment externalAI
      (combinedInput text_input image_analysis)).level with _ | l
  · rfl
  rcases hc : (get_triage_assessment externalAI
      (combinedInput text_input image_analysis)).confidence with _ | c
  · rfl
  rcases hs : (get_triage_assessment externalAI
      (combinedInput text_input image_analysis)).summary with _ | s
  · rfl
  rcases hr : (get_triage_assessment externalAI
      (combinedInput text_input image_analysis)).recommendations with _ | r
  · rfl
  rcases hn : (get_triage_assessment externalAI
      (combinedInput text_input image_analysis)).next_steps with _ | n
  · rfl
  · simp [assessmentComplete, hl, hc, hs, hr, hn] at h

/- ### Claim C1: result normalization over the tier chain -/

/-- A parsed external-AI response that, when complete, already satisfies
the level/confidence invariant.  The source performs no validation of the
parsed response, so claim C1 only holds under this hypothesis. -/
def externalWellFormed (externalAI : Option (Except Unit Assessment)) : Prop :=
  ∀ a, externalAI = some (Except.ok a) → assessmentComplete a = true →
    validLevel (a.level.getD "") = true ∧
      0 ≤ a.confidence.getD 0 ∧ a.confidence.getD 0 ≤ 1

/-- C1 counterexample: a parsed external response with level "banana" and
confidence 2.0 is passed through `analyze_symptoms` unchanged, so the
returned level is outside the four enumerated values and the returned
confidence exceeds 1. -/
theorem triage_invariant_cex :
    validLevel (analyze_symptoms
        (some (Except.ok
          { level := some "banana", confidence := some 2, summary := some "ok",
            recommendations := some [], next_steps := some [], risk_factors := none }))
        "chest pain" none 1).level = false ∧
    (analyze_symptoms
        (some (Except.ok
          { level := some "banana", confidence := some 2, summary := some "ok",
            recommendations := some [], next_steps := some [], risk_factors := none }))
        "chest pain" none 1).confidence = 2 :=
  ⟨rfl, rfl⟩

/-- C1 (amended): for every input, `analyze_symptoms` returns a result
with level among the four enumerated values and confidence in [0,1],
provided the external tier either is unconfigured, fails, returns an
incomplete response, or returns a response that itself satisfies the
invariant — the external tier's parsed response is used without
validation, so the invariant cannot be unconditional. -/
theorem triage_invariant_amended (externalAI : Option (Except Unit Assessment))
    (text_input : String) (image_analysis : Option String) (elapsed : ℚ)
    (h : externalWellFormed externalAI) :
    validLevel (analyze_symptoms externalAI text_input image_analysis elapsed).level = true ∧
    0 ≤ (analyze_symptoms externalAI text_input image_analysis elapsed).confidence ∧
    (analyze_symptoms externalAI text_input image_analysis elapsed).confidence ≤ 1 := by
  have hrb : ∀ ext : Option (Except Unit Assessment),
      get_triage_assessment ext (combinedInput text_input image_analysis)
        = get_rule_based_assessment (combinedInput text_input image_analysis) →
      validLevel (analyze_symptoms ext text_input image_analysis elapsed).level = true ∧
      0 ≤ (analyze_symptoms ext text_input image_analysis elapsed).confidence ∧
      (analyze_symptoms ext text_input image_analysis elapsed).confidence ≤ 1 := by
    intro ext hext
    obtain ⟨hcomp, hval, h0, h1⟩ := rule_based_assessment_ok (combinedInput text_input image_analysis)
    rw [analyze_symptoms_of_complete ext text_input image_analysis elapsed (by rw [hext]; exact hcomp)]
    rw [hext]
    exact ⟨hval, h0, h1⟩
  match externalAI with
  | none => exact hrb none rfl
  | some (Except.error e) => exact hrb (some (Except.error e)) rfl
  | some (Except.ok a) =>
    by_cases hc : assessmentComplete a = true
    · obtain ⟨hval, h0, h1⟩ := h a rfl hc
      rw [analyze_symptoms_of_complete (some (Except.ok a)) text_input image_analysis elapsed hc]
      exact ⟨hval, h0, h1⟩
    · rw [analyze_symptoms_of_incomplete (some (Except.ok a)) text_input image_analysis elapsed
        (Bool.eq_false_iff.mpr hc)]
      refine ⟨rfl, by norm_num [safeDefaultResult], by norm_num [safeDefaultResult]⟩

theorem triage_invariant_amended_witness :
    externalWellFormed none ∧
    (validLevel (analyze_symptoms none "mild cough" none 1).level = true ∧
     0 ≤ (analyze_symptoms none "mild cough" none 1).confidence ∧
     (analyze_symptoms none "mild cough" none 1).confidence ≤ 1) :=
  ⟨(fun _ ha => nomatch ha),
   triage_invariant_amended none "mild cough" none 1 (fun _ ha => nomatch ha)⟩

/- ### Claim C8: exception handling in `analyze_symptoms` -/

/-- C8 counterexample: when the external tier raises (an internal step of
the symptom analysis raising an exception), the engine does not return the
safe default: for "chest pain" it returns the rule-based emergency
assessment, whose level differs from the safe default's "routine". -/
theorem engine_safe_default_cex :
    (analyze_symptoms (some (Except.error ())) "chest pain" none 1).level = "emergency" ∧
    safeDefaultResult.level = "routine" :=
  ⟨rfl, rfl⟩

/-- C8 (amended): an exception that reaches `analyze_symptoms`'s own
handler — i.e. a required key missing from the assessment dictionary, the
only raising step not recovered inside the tier chain — yields exactly the
safe default result (routine, confidence 0.5, referral summary,
processing_time 0); an exception raised inside the external tier is
instead recovered by escalation to the rule-based assessment. -/
theorem engine_safe_default_amended (externalAI : Option (Except Unit Assessment))
    (text_input : String) (image_analysis : Option String) (elapsed : ℚ)
    (h : assessmentComplete
          (get_triage_assessment externalAI (combinedInput text_input image_analysis)) = false) :
    analyze_symptoms externalAI text_input image_analysis elapsed = safeDefaultResult :=
  analyze_symptoms_of_incomplete externalAI text_input image_analysis elapsed h

theorem engine_safe_default_amended_witness :
    assessmentComplete
        (get_triage_assessment
          (some (Except.ok
            { level := none, confidence := none, summary := none,
              recommendations := none, next_steps := none, risk_factors := none }))
          (combinedInput "dizzy" none)) = false ∧
    analyze_symptoms
        (some (Except.ok
          { level := none, confidence := none, summary := none,
            recommendations := none, next_steps := none, risk_factors := none }))
        "dizzy" none 1 = safeDefaultResult :=
  ⟨by decide,
   engine_safe_default_amended
     (some (Except.ok
       { level := none, confidence := none, summary := none,
         recommendations := none, next_steps := none, risk_factors := none }))
     "dizzy" none 1 (by decide)⟩

/- ### ResourceMatcher: `find_healthcare_resources` (triage_service.py)

The geodesic distance is an external capability (`dist`).  The resource
store is `none` when there is no database connection, `some (Except.error
_)` when the query raises, and `some (Except.ok rows)` when it returns
rows. -/

structure ResourceRow where
  id : String
  name : String
  type : String
  address : String
  latitude : ℚ
  longitude : ℚ
  phone : String
  hours : String
  accepts_insurance : Bool
  financial_aid : Bool
  rating : Option ℚ
  specialties : Option String
  wait_time : Option String

structure HealthcareResource where
  id : String
  name : String
  type : String
  address : String
  distance : ℚ
  phone : String
  hours : String
  accepts_insurance : Bool
  financial_aid : Bool
  rating : ℚ
  coordinates : ℚ × ℚ
  specialties : List String
  wait_time : Option String

/-- Python `round(distance, 1)`: rounding to the nearest tenth (the
source rounds a float; tie behavior is irrelevant to the claims). -/
def round1 (q : ℚ) : ℚ := (round (q * 10) : ℤ) / 10

/-- The `HealthcareResource(...)` constructed per row in
`find_healthcare_resources`: `rating` is `row[10] or 0.0` and
`specialties` is `row[11].split(',') if row[11] else []`. -/
def mkResource (row : ResourceRow) (d : ℚ) : HealthcareResource :=
  { id := row.id, name := row.name, type := row.type, address := row.address,
    distance := round1 d, phone := row.phone, hours := row.hours,
    accepts_insurance := row.accepts_insurance, financial_aid := row.financial_aid,
    rating := row.rating.getD 0, coordinates := (row.latitude, row.longitude),
    specialties :=
      match row.specialties with
      | some s => if s.isEmpty then [] else s.splitOn ","
      | none => [],
    wait_time := row.wait_time }

/-- `TriageAIService._filter_resources_by_triage_level`. -/
def filter_resources_by_triage_level (resources : List HealthcareResource)
    (triage_level : String) : List HealthcareResource :=
  if triage_level = "emergency" then
    resources.filter (fun r => r.type == "hospital")
  else if triage_level = "urgent" then
    resources.filter (fun r => r.type == "urgent_care" || r.type == "hospital")
  else
    resources

/-- `TriageAIService._get_mock_resources`: the fixed fallback list. -/
def mockResources : List HealthcareResource :=
  [{ id := "mock_1", name := "City General Hospital", type := "hospital",
     address := "123 Medical Center Dr, San Francisco, CA", distance := 2.1,
     phone := "(555) 123-4567", hours := "24/7", accepts_insurance := true,
     financial_aid := true, rating := 4.8, coordinates := (37.7749, -122.4194),
     specialties := ["emergency", "trauma"], wait_time := some "2-4 hours" },
   { id := "mock_2", name := "Urgent Care Express", type := "urgent_care",
     address := "456 Health Plaza, San Francisco, CA", distance := 1.3,
     phone := "(555) 987-6543", hours := "8AM-10PM", accepts_insurance := true,
     financial_aid := false, rating := 4.5, coordinates := (37.7849, -122.4094),
     specialties := ["urgent_care"], wait_time := some "30-60 minutes" }]

/-- Ordering used by `resources.sort(key=lambda x: x.distance)`. -/
def distLE (a b : HealthcareResource) : Prop := a.distance ≤ b.distance

instance : DecidableRel distLE :=
  fun a b => inferInstanceAs (Decidable (a.distance ≤ b.distance))

instance : IsTotal HealthcareResource distLE :=
  ⟨fun a b => le_total a.distance b.distance⟩

instance : IsTrans HealthcareResource distLE :=
  ⟨fun _ _ _ hab hbc => le_trans hab hbc⟩

/-- `TriageAIService.find_healthcare_resources`: compute a distance per
row, keep rows within `max_distance`, sort ascending by distance, filter
by triage level, return the first 10; any store failure falls back to the
mock list. -/
def find_healthcare_resources (dist : ℚ × ℚ → ℚ × ℚ → ℚ)
    (store : Option (Except Unit (List ResourceRow)))
    (location : ℚ × ℚ) (triage_level : String) (max_distance : ℚ) :
    List HealthcareResource :=
  match store with
  | none => mockResources
  | some (Except.error _) => mockResources
  | some (Except.ok rows) =>
    let resources := rows.filterMap fun row =>
      let d := dist location (row.latitude, row.longitude)
      if d ≤ max_distance then some (mkResource row d) else none
    let sorted := List.insertionSort distLE resources
    (filter_resources_by_triage_level sorted triage_level).take 10

/-- The spec's eligibility rule mapping a triage level to admissible
facility types (spec-side definition for claims C5/C10). -/
def eligibleType (level type : String) : Bool :=
  if level = "emergency" then type == "hospital"
  else if level = "urgent" then type == "hospital" || type == "urgent_care"
  else true

/- ### Helper lemmas about the level filter -/

theorem filter_level_sublist (l : List HealthcareResource) (lvl : String) :
    (filter_resources_by_triage_level l lvl).Sublist l := by
  unfold filter_resources_by_triage_level
  split_ifs
  · exact List.filter_sublist l
  · exact List.filter_sublist l
  · exact List.Sublist.refl l

theorem filter_level_pairwise (l : List HealthcareResource) (lvl : String)
    (h : List.Pairwise distLE l) :
    List.Pairwise distLE (filter_resources_by_triage_level l lvl) := by
  unfold filter_resources_by_triage_level
  split_ifs
  · exact h.filter _
  · exact h.filter _
  · exact h

/- ### Claim C10: unknown levels pass the filter unchanged -/

/-- C10: for every triage level other than "emergency" and "urgent" —
including "self_care" and arbitrary malformed values — the level filter
returns its input unchanged (and, being total, raises nothing). -/
theorem filter_unknown_level_identity (resources : List HealthcareResource)
    (triage_level : String)
    (h1 : triage_level ≠ "emergency") (h2 : triage_level ≠ "urgent") :
    filter_resources_by_triage_level resources triage_level = resources := by
  unfold filter_resources_by_triage_level
  rw [if_neg h1, if_neg h2]

theorem filter_unknown_level_identity_witness :
    (("self_care" : String) ≠ "emergency" ∧ ("self_care" : String) ≠ "urgent") ∧
    filter_resources_by_triage_level mockResources "self_care" = mockResources :=
  ⟨⟨by decide, by decide⟩,
   filter_unknown_level_identity mockResources "self_care" (by decide) (by decide)⟩

/- ### Claim C7: fallback when the store is unavailable -/

/-- C7: with no database connection (`none`) or a raising query
(`Except.error`), `find_healthcare_resources` returns the fixed mock list
— a total function, so no error reaches the caller — and that list
contains a hospital and an urgent-care entry. -/
theorem resource_fallback_total (dist : ℚ × ℚ → ℚ × ℚ → ℚ) (location : ℚ × ℚ)
    (triage_level : String) (max_distance : ℚ) :
    (find_healthcare_resources dist none location triage_level max_distance
        = mockResources ∧
     find_healthcare_resources dist (some (Except.error ())) location triage_level
        max_distance = mockResources) ∧
    (∃ r ∈ mockResources, r.type = "hospital") ∧
    (∃ r ∈ mockResources, r.type = "urgent_care") :=
  ⟨⟨rfl, rfl⟩, by decide, by decide⟩

/- ### Claim C5: triage-level eligibility of returned resources -/

/-- C5 counterexample: with the store unavailable and level "emergency",
the fallback list is returned unfiltered, so the result contains an
entry of type "urgent_care", which the eligibility rule for "emergency"
does not admit. -/
theorem resource_eligibility_cex :
    find_healthcare_resources (fun _ _ => 0) none (0, 0) "emergency" 50 = mockResources ∧
    mockResources.map (fun r => r.type) = ["hospital", "urgent_care"] ∧
    eligibleType "emergency" "urgent_care" = false :=
  ⟨rfl, rfl, rfl⟩

/-- C5 (amended): on the database path every returned resource's type
satisfies the eligibility rule of the requested level; the fallback path
returns the fixed mock list without applying the eligibility rule. -/
theorem resource_eligibility_amended (dist : ℚ × ℚ → ℚ × ℚ → ℚ)
    (location : ℚ × ℚ) (triage_level : String) (max_distance : ℚ)
    (rows : List ResourceRow) :
    ∀ r ∈ find_healthcare_resources dist (some (Except.ok rows)) location
        triage_level max_distance,
      eligibleType triage_level r.type = true := by
  intro r hr
  simp only [find_healthcare_resources] at hr
  have h1 := (List.take_sublist 10 _).subset hr
  unfold filter_resources_by_triage_level at h1
  unfold eligibleType
  by_cases hem : triage_level = "emergency"
  · rw [if_pos hem] at h1
    rw [if_pos hem]
    exact (List.mem_filter.mp h1).2
  · rw [if_neg hem] at h1
    rw [if_neg hem]
    by_cases hur : triage_level = "urgent"
    · rw [if_pos hur] at h1
      rw [if_pos hur, Bool.or_comm]
      exact (List.mem_filter.mp h1).2
    · rw [if_neg hur]

/-- One row of the seed data loaded by `_load_sample_data`. -/
def sampleRow : ResourceRow :=
  { id := "sf_general", name := "San Francisco General Hospital", type := "hospital",
    address := "1001 Potrero Ave, San Francisco, CA 94110",
    latitude := 37.7555, longitude := -122.4064,
    phone := "(415) 206-8000", hours := "24/7",
    accepts_insurance := true, financial_aid := true, rating := some 4.7,
    specialties := some "emergency,trauma,cardiology", wait_time := some "2-4 hours" }

/-- A degenerate distance capability for concrete witnesses. -/
def zeroDist : ℚ × ℚ → ℚ × ℚ → ℚ := fun _ _ => 0

def sampleResource : HealthcareResource :=
  mkResource sampleRow (zeroDist (0, 0) (sampleRow.latitude, sampleRow.longitude))

theorem resource_eligibility_amended_witness :
    sampleResource ∈ find_healthcare_resources zeroDist (some (Except.ok [sampleRow]))
        (0, 0) "urgent" 50 ∧
    eligibleType "urgent" sampleResource.type = true := by
  have mm : sampleResource ∈ find_healthcare_resources zeroDist
      (some (Except.ok [sampleRow])) (0, 0) "urgent" 50 := List.Mem.head _
  exact ⟨mm, resource_eligibility_amended zeroDist (0, 0) "urgent" 50 [sampleRow]
    sampleResource mm⟩

/- ### Claim C6: ordering, distance bound and length of results -/

/-- C6 counterexample: with the store unavailable the fallback list is
returned as-is, and it is not sorted by distance (2.1 miles before 1.3
miles); its entries' distances are also not compared against
`max_distance`. -/
theorem resource_order_cex :
    find_healthcare_resources (fun _ _ => 0) none (0, 0) "routine" 50 = mockResources ∧
    ¬ List.Pairwise distLE mockResources := by
  refine ⟨rfl, fun h => ?_⟩
  have h21 := (List.pairwise_cons.mp h).1 _ (List.mem_cons_self _ _)
  simp only [mockResources, distLE] at h21
  norm_num at h21

/-- C6 (amended): on the database path the returned list is sorted
non-decreasing by the stored distance field and every entry arises from a
row whose computed (unrounded) distance is at most `max_distance`, the
stored field being that distance rounded to one decimal; on every path the
list has at most 10 entries.  The fallback list is returned unsorted and
without the distance filter. -/
theorem resource_order_bound_amended (dist : ℚ × ℚ → ℚ × ℚ → ℚ)
    (location : ℚ × ℚ) (triage_level : String) (max_distance : ℚ) :
    (∀ rows : List ResourceRow,
      List.Pairwise distLE (find_healthcare_resources dist (some (Except.ok rows))
          location triage_level max_distance) ∧
      ∀ r ∈ find_healthcare_resources dist (some (Except.ok rows)) location
          triage_level max_distance,
        ∃ row ∈ rows, dist location (row.latitude, row.longitude) ≤ max_distance ∧
          r = mkResource row (dist location (row.latitude, row.longitude))) ∧
    ∀ store, (find_healthcare_resources dist store location triage_level
        max_distance).length ≤ 10 := by
  constructor
  · intro rows
    constructor
    · simp only [find_healthcare_resources]
      exact List.Pairwise.sublist (List.take_sublist 10 _)
        (filter_level_pairwise _ _ (List.sorted_insertionSort distLE _))
    · intro r hr
      simp only [find_healthcare_resources] at hr
      have h1 := (filter_level_sublist _ _).subset ((List.take_sublist 10 _).subset hr)
      have h2 := (List.perm_insertionSort distLE _).mem_iff.mp h1
      rw [List.mem_filterMap] at h2
      obtain ⟨row, hrow, heq⟩ := h2
      by_cases hd : dist location (row.latitude, row.longitude) ≤ max_distance
      · rw [if_pos hd] at heq
        exact ⟨row, hrow, hd, (Option.some_inj.mp heq).symm⟩
      · rw [if_neg hd] at heq
        exact absurd heq (Option.noConfusion)
  · intro store
    match store with
    | none => show mockResources.length ≤ 10; decide
    | some (Except.error e) => show mockResources.length ≤ 10; decide
    | some (Except.ok rows) => exact List.length_take_le 10 _

theorem resource_order_bound_amended_witness :
    sampleResource ∈ find_healthcare_resources zeroDist (some (Except.ok [sampleRow]))
        (0, 0) "emergency" 50 ∧
    ∃ row ∈ [sampleRow], zeroDist (0, 0) (row.latitude, row.longitude) ≤ 50 ∧
      sampleResource = mkResource row (zeroDist (0, 0) (row.latitude, row.longitude)) := by
  have mm : sampleResource ∈ find_healthcare_resources zeroDist
      (some (Except.ok [sampleRow])) (0, 0) "emergency" 50 := List.Mem.head _
  exact ⟨mm, ((resource_order_bound_amended zeroDist (0, 0) "emergency" 50).1
    [sampleRow]).2 sampleResource mm⟩

/- ### ConversationMemory (enhanced_triage_service.py)

`conversation_context` is a Python dict keyed by session id; it is
embedded as a function to `Option` (absent key = `none`). -/

structure ConversationTurn where
  role : String
  content : String

def Ctx : Type := String → Option (List ConversationTurn)

def emptyCtx : Ctx := fun _ => none

def historyOf (ctx : Ctx) (session_id : String) : List ConversationTurn :=
  (ctx session_id).getD []

/-- Python whitespace class `\s`. -/
def isPyWs (c : Char) : Bool :=
  c == ' ' || c == '\t' || c == '\n' || c == '\r' || c == '\x0b' || c == '\x0c'

/-- `re.sub(r'\s+', ' ', text)`: collapse each whitespace run to one
space. -/
def squeezeWs : Bool → List Char → List Char
  | _, [] => []
  | prevWs, c :: cs =>
    if isPyWs c then
      if prevWs then squeezeWs true cs else ' ' :: squeezeWs true cs
    else c :: squeezeWs false cs

/-- Python `str.strip()` after the collapse. -/
def stripEnds (l : List Char) : List Char :=
  ((l.dropWhile fun c => isPyWs c).reverse.dropWhile fun c => isPyWs c).reverse

/-- `EnhancedTriageService.preprocess_symptoms`: lowercase, replace
non-word non-space characters by spaces, collapse whitespace, strip. -/
def preprocess_symptoms (text : String) : String :=
  let t1 := text.data.map Char.toLower
  let t2 := t1.map fun c => if wordChar c || isPyWs c then c else ' '
  ⟨stripEnds (squeezeWs false t2)⟩

/-- `triage_guidelines.get(level, {}).get("response_template", default)`. -/
def templateFor (triage_level : String) : String :=
  if triage_level = "emergency" then
    "Based on your symptoms, this appears to be a medical emergency. Please seek immediate care at the nearest emergency room or call 911."
  else if triage_level = "urgent" then
    "Your symptoms suggest you should visit an urgent care center within the next 24 hours."
  else if triage_level = "routine" then
    "Based on your symptoms, you should schedule an appointment with your primary care provider."
  else
    "Based on your symptoms, I recommend consulting with a healthcare professional."

/-- `EnhancedTriageService._get_specific_guidance`. -/
def get_specific_guidance (symptoms : String) : String :=
  let sl := lowerStr symptoms
  if containsStr sl "chest pain" then
    "Chest pain can be serious, especially if it radiates to your arm, neck, or jaw, or is accompanied by shortness of breath, nausea, or sweating."
  else if containsStr sl "abdominal pain" then
    "Abdominal pain can indicate various conditions. Severe, sudden pain or pain with fever requires immediate attention."
  else if containsStr sl "headache" then
    "Most headaches are not serious, but sudden severe headaches or headaches with confusion require immediate medical attention."
  else if containsStr sl "difficulty breathing" then
    "Difficulty breathing is a medical emergency. Please seek immediate care."
  else ""

/-- `EnhancedTriageService._get_follow_up_questions`. -/
def get_follow_up_questions (symptoms : String) : String :=
  let sl := lowerStr symptoms
  if containsStr sl "pain" then
    "Can you rate your pain on a scale of 1-10? When did the pain start? Is it constant or intermittent?"
  else if containsStr sl "fever" then
    "What is your temperature? How long have you had the fever? Are you experiencing any other symptoms?"
  else if containsStr sl "nausea" then
    "Are you vomiting? When did the nausea start? Are you able to keep fluids down?"
  else
    "Can you tell me more about your symptoms? How long have you been experiencing them?"

/-- `EnhancedTriageService._get_rule_based_response` (the generator tier
is absent, so `generate_medical_response` always lands here). -/
def get_rule_based_response (symptoms : String) : String :=
  templateFor (determine_triage_level symptoms).1 ++ " "
    ++ get_specific_guidance symptoms ++ " " ++ get_follow_up_questions symptoms

/-- Python `history[-10:]`. -/
def lastN {α : Type} (n : Nat) (l : List α) : List α := l.drop (l.length - n)

/-- The effect of `EnhancedTriageService.assess_symptoms` on the
conversation context: read the session history, append the patient turn
and the generated assistant turn, store the last 10 turns (no store
update without a session id). -/
def assess_symptoms_ctx (ctx : Ctx) (session_id : Option String)
    (symptoms : String) : Ctx :=
  let processed := preprocess_symptoms symptoms
  let history0 := match session_id with
    | some sid => (ctx sid).getD []
    | none => []
  let history1 := history0 ++ [⟨"user", processed⟩]
  let ai_response := get_rule_based_response processed
  let history2 := history1 ++ [⟨"assistant", ai_response⟩]
  match session_id with
  | some sid => fun k => if k = sid then some (lastN 10 history2) else ctx k
  | none => ctx

/-- `EnhancedTriageService.clear_conversation_context`. -/
def clear_conversation_context (ctx : Ctx) (session_id : String) : Ctx :=
  if (ctx session_id).isSome then
    fun k => if k = session_id then none else ctx k
  else ctx

inductive MemOp where
  | assess (session_id : Option String) (symptoms : String)
  | clear (session_id : String)

/-- A client session: any interleaving of assessments and clears starting
from the empty context. -/
def runOps (ops : List MemOp) : Ctx :=
  ops.foldl
    (fun ctx op =>
      match op with
      | MemOp.assess sid s => assess_symptoms_ctx ctx sid s
      | MemOp.clear sid => clear_conversation_context ctx sid)
    emptyCtx

/- ### Helper lemmas for claim C9 -/

theorem lastN_length_le {α : Type} (n : Nat) (l : List α) : (lastN n l).length ≤ n := by
  simp only [lastN, List.length_drop]
  omega

theorem assess_preserves_bound (ctx : Ctx) (sid : Option String) (t : String)
    (h : ∀ s, (historyOf ctx s).length ≤ 10) :
    ∀ s, (historyOf (assess_symptoms_ctx ctx sid t) s).length ≤ 10 := by
  intro s
  match sid with
  | none => exact h s
  | some sid0 =>
    simp only [assess_symptoms_ctx, historyOf]
    by_cases hs : s = sid0
    · rw [if_pos hs]
      simpa using lastN_length_le 10 _
    · rw [if_neg hs]
      exact h s

theorem clear_preserves_bound (ctx : Ctx) (sid : String)
    (h : ∀ s, (historyOf ctx s).length ≤ 10) :
    ∀ s, (historyOf (clear_conversation_context ctx sid) s).length ≤ 10 := by
  intro s
  unfold clear_conversation_context
  by_cases hp : (ctx sid).isSome
  · rw [if_pos hp]
    by_cases hs : s = sid
    · simp [historyOf, hs]
    · simpa [historyOf, hs] using h s
  · rw [if_neg hp]
    exact h s

theorem runOps_bounded (ops : List MemOp) :
    ∀ s, (historyOf (runOps ops) s).length ≤ 10 := by
  suffices key : ∀ (ops : List MemOp) (ctx : Ctx), (∀ s, (historyOf ctx s).length ≤ 10) →
      ∀ s, (historyOf (ops.foldl
        (fun ctx op =>
          match op with
          | MemOp.assess sid t => assess_symptoms_ctx ctx sid t
          | MemOp.clear sid => clear_conversation_context ctx sid) ctx) s).length ≤ 10 by
    exact key ops emptyCtx (by intro s; simp [historyOf, emptyCtx])
  intro ops
  induction ops with
  | nil => intro ctx h; exact h
  | cons op rest ih =>
    intro ctx h
    apply ih
    match op with
    | MemOp.assess sid t => exact assess_preserves_bound ctx sid t h
    | MemOp.clear sid => exact clear_preserves_bound ctx sid h

/- ### Claim C9: bounded, clearable conversation memory -/

/-- C9: over every sequence of assessments and clears, every session's
stored history keeps length at most 10; an assessment on a session stores
exactly the last 10 turns of the old history plus the new patient and
assistant turns (oldest evicted first); after a clear the session's
history reads empty; a clear of an absent session is a no-op; clear is
idempotent. -/
theorem conversation_memory_bounded :
    (∀ ops : List MemOp, ∀ s, (historyOf (runOps ops) s).length ≤ 10) ∧
    (∀ (ctx : Ctx) (sid : String) (t : String),
      historyOf (assess_symptoms_ctx ctx (some sid) t) sid
        = lastN 10 (historyOf ctx sid
            ++ [⟨"user", preprocess_symptoms t⟩,
                ⟨"assistant", get_rule_based_response (preprocess_symptoms t)⟩])) ∧
    (∀ (ctx : Ctx) (sid : String),
      historyOf (clear_conversation_context ctx sid) sid = []) ∧
    (∀ (ctx : Ctx) (sid : String), ctx sid = none →
      clear_conversation_context ctx sid = ctx) ∧
    (∀ (ctx : Ctx) (sid : String),
      clear_conversation_context (clear_conversation_context ctx sid) sid
        = clear_conversation_context ctx sid) := by
  have clear_absent : ∀ (ctx : Ctx) (sid : String), ctx sid = none →
      clear_conversation_context ctx sid = ctx := by
    intro ctx sid h
    unfold clear_conversation_context
    rw [h]
    rfl
  refine ⟨runOps_bounded, ?_, ?_, clear_absent, ?_⟩
  · intro ctx sid t
    simp only [assess_symptoms_ctx, historyOf]
    simp
  · intro ctx sid
    unfold clear_conversation_context historyOf
    by_cases hp : (ctx sid).isSome
    · rw [if_pos hp]
      simp
    · rw [if_neg hp]
      simp [Option.not_isSome_iff_eq_none.mp hp]
  · intro ctx sid
    by_cases hp : (ctx sid).isSome
    · apply clear_absent
      unfold clear_conversation_context
      rw [if_pos hp]
      simp
    · rw [clear_absent ctx sid (Option.not_isSome_iff_eq_none.mp hp)]
      exact clear_absent ctx sid (Option.not_isSome_iff_eq_none.mp hp)

theorem conversation_memory_bounded_witness :
    emptyCtx "s1" = none ∧ clear_conversation_context emptyCtx "s1" = emptyCtx :=
  ⟨rfl, conversation_memory_bounded.2.2.2.1 emptyCtx "s1" rfl⟩
